import Mathlib

/-!
Verification of the anti-gravity simulator core (src/simulator.py) against its
natural-language specification. The Python module is embedded shallowly over ℝ:
the dataclass `AntiGravityField` with its `__post_init__` validation becomes a
fallible constructor returning `Except`, the simulator's mutable time cursor
becomes explicit state passing, and `round(x, 4)` becomes nearest-integer
rounding of `x * 10 ^ 4` over the reals.
-/

open Real

/-- Represents an anti-gravity field configuration (dataclass `AntiGravityField`:
strength, frequency in Hz, radius in meters, stability). -/
structure AntiGravityField where
  strength : ℝ
  frequency : ℝ
  radius : ℝ
  stability : ℝ

/-- Validated construction of `AntiGravityField`: the dataclass constructor runs
`__post_init__`, which raises `ValueError` when strength or stability lies
outside [0.0, 1.0]; otherwise the four supplied values are stored unchanged. -/
noncomputable def mkField (strength frequency radius stability : ℝ) :
    Except String AntiGravityField :=
  if ¬ (0 ≤ strength ∧ strength ≤ 1) then
    Except.error "Field strength must be between 0.0 and 1.0"
  else if ¬ (0 ≤ stability ∧ stability ≤ 1) then
    Except.error "Stability must be between 0.0 and 1.0"
  else
    Except.ok (AntiGravityField.mk strength frequency radius stability)

/-- State of `AntiGravitySimulator`: the mass, the owned field configuration and
the internal time cursor `self.time`. -/
structure AntiGravitySimulator where
  mass : ℝ
  field : AntiGravityField
  time : ℝ

/-- `AntiGravitySimulator(mass)`: the default field configuration (strength 0.8,
frequency 9.8, radius 5.0, stability 0.95) and time cursor 0.0. -/
noncomputable def mkSimulator (mass : ℝ) : AntiGravitySimulator :=
  AntiGravitySimulator.mk mass (AntiGravityField.mk 0.8 9.8 5.0 0.95) 0

/-- Python `round(x, 4)` over ℝ: rounding to 4 decimal places, i.e.
nearest-integer rounding of `x * 10 ^ 4` scaled back down. -/
noncomputable def round4 (x : ℝ) : ℝ :=
  ((round (x * 10000) : ℤ) : ℝ) / 10000

/-- The local `adjusted_force` of `calculate_force` at an explicit time value:
`force = strength * sin(2 * pi * frequency * time) * stability`, then
`adjusted_force = force * (1 / (1 + 0.1 * mass))`, before rounding. -/
noncomputable def adjusted_force (sim : AntiGravitySimulator) (time : ℝ) : ℝ :=
  (sim.field.strength * Real.sin (2 * π * sim.field.frequency * time) *
    sim.field.stability) * (1 / (1 + 0.1 * sim.mass))

/-- The value `calculate_force` returns for an explicit time value:
the adjusted force rounded to 4 decimal places. -/
noncomputable def calculate_force_at (sim : AntiGravitySimulator) (time : ℝ) : ℝ :=
  round4 (adjusted_force sim time)

/-- `calculate_force(time)`: when `time` is `None` the internal cursor is read
and then advanced by 0.1; the result is the force together with the post-call
simulator state. -/
noncomputable def calculate_force (sim : AntiGravitySimulator) (time : Option ℝ) :
    ℝ × AntiGravitySimulator :=
  match time with
  | none =>
      (calculate_force_at sim sim.time,
        AntiGravitySimulator.mk sim.mass sim.field (sim.time + 0.1))
  | some t => (calculate_force_at sim t, sim)

/-- `np.linspace(0, stop, num)` over ℝ: `num` evenly spaced points from 0 to
`stop`, both endpoints included (for `num = 1` the single point 0: the
expression below is `0 / 0 = 0` there). -/
noncomputable def linspace (stop : ℝ) (num : ℕ) : List ℝ :=
  (List.range num).map (fun i : ℕ => stop * (i : ℝ) / ((num : ℝ) - 1))

/-- The `for t in time_points` loop of `simulate_trajectory`: for each timestamp
the force via `calculate_force(t)` (explicit-time path), then
`acceleration = force / mass`, `velocity += acceleration * (duration / steps)`,
`current_height += velocity * (duration / steps)` and the cumulative height is
appended. -/
noncomputable def trajectory_loop (sim : AntiGravitySimulator) (duration : ℝ)
    (steps : ℕ) : ℝ → ℝ → List ℝ → List ℝ
  | _, _, [] => []
  | velocity, current_height, t :: ts =>
      let force := calculate_force_at sim t
      let acceleration := force / sim.mass
      let velocity2 := velocity + acceleration * (duration / (steps : ℝ))
      let height2 := current_height + velocity2 * (duration / (steps : ℝ))
      height2 :: trajectory_loop sim duration steps velocity2 height2 ts

/-- `simulate_trajectory(duration, steps)`: timestamps from
`np.linspace(0, duration, steps)` and the heights the Euler loop accumulates,
starting from `current_height = 0.0` and `velocity = 0.0`. -/
noncomputable def simulate_trajectory (sim : AntiGravitySimulator) (duration : ℝ)
    (steps : ℕ) : List ℝ × List ℝ :=
  (linspace duration steps,
    trajectory_loop sim duration steps 0 0 (linspace duration steps))

/-- The local `optimized_strength` of `optimize_field`:
`min(1.0, strength * (1 + target_height * 0.05))`. -/
noncomputable def optimized_strength (sim : AntiGravitySimulator)
    (target_height : ℝ) : ℝ :=
  min 1 (sim.field.strength * (1 + target_height * 0.05))

/-- `optimize_field(target_height)`: constructs a new `AntiGravityField` with the
boosted strength, the carried-over frequency and radius, and
`stability = max(0.8, stability)`; the simulator state itself is returned
unchanged (`self` is never written). -/
noncomputable def optimize_field (sim : AntiGravitySimulator) (target_height : ℝ) :
    Except String AntiGravityField × AntiGravitySimulator :=
  (mkField (optimized_strength sim target_height) sim.field.frequency
    sim.field.radius (max 0.8 sim.field.stability), sim)

/-- Follows the spec's words for C2 (refinement side): the Euler velocity after
`i` loop iterations, `velocity += (force / mass) * dt` with `dt = D / N` and the
force evaluated at the timestamp `D * i / (N - 1)`. -/
noncomputable def spec_velocity (sim : AntiGravitySimulator) (D : ℝ) (N : ℕ) :
    ℕ → ℝ
  | 0 => 0
  | i + 1 =>
      spec_velocity sim D N i +
        calculate_force_at sim (D * i / ((N : ℝ) - 1)) / sim.mass *
          (D / (N : ℝ))

/-- Follows the spec's words for C2 (refinement side): the cumulative height
after `i` loop iterations, `height += velocity * dt`. -/
noncomputable def spec_height (sim : AntiGravitySimulator) (D : ℝ) (N : ℕ) :
    ℕ → ℝ
  | 0 => 0
  | i + 1 => spec_height sim D N i + spec_velocity sim D N (i + 1) * (D / (N : ℝ))

/-- A list of reals is in ascending order: each element is at most every
later one. -/
def ascending (l : List ℝ) : Prop := l.Pairwise (· ≤ ·)

/-- Rounding to 4 decimal places maps [-1, 1] into itself. -/
theorem round4_mem_Icc (x : ℝ) (hx : |x| ≤ 1) : round4 x ∈ Set.Icc (-1 : ℝ) 1 := by
  have h1 : x * 10000 ≤ 10000 := by
    nlinarith [abs_le.mp hx]
  have h2 : -10000 ≤ x * 10000 := by
    nlinarith [abs_le.mp hx]
  have hu : ((round (x * 10000) : ℤ) : ℝ) ≤ x * 10000 + 1 / 2 := round_le_add_half _
  have hl : x * 10000 - 1 / 2 < ((round (x * 10000) : ℤ) : ℝ) := sub_half_lt_round _
  have hu2 : ((round (x * 10000) : ℤ) : ℝ) < 10001 := by linarith
  have hl2 : (-10001 : ℝ) < ((round (x * 10000) : ℤ) : ℝ) := by linarith
  have hu3 : round (x * 10000) < (10001 : ℤ) := by exact_mod_cast hu2
  have hl3 : (-10001 : ℤ) < round (x * 10000) := by exact_mod_cast hl2
  have hu4 : round (x * 10000) ≤ (10000 : ℤ) := by omega
  have hl4 : (-10000 : ℤ) ≤ round (x * 10000) := by omega
  have hu5 : ((round (x * 10000) : ℤ) : ℝ) ≤ 10000 := by exact_mod_cast hu4
  have hl5 : (-10000 : ℝ) ≤ ((round (x * 10000) : ℤ) : ℝ) := by exact_mod_cast hl4
  unfold round4
  constructor
  · rw [le_div_iff₀ (by norm_num : (0:ℝ) < 10000)]
    linarith
  · rw [div_le_one (by norm_num : (0:ℝ) < 10000)]
    linarith

/-- C1: for every field configuration, mass and explicitly supplied time t,
`calculate_force(t)` returns
`round(strength * sin(2*pi*frequency*t) * stability * (1 / (1 + 0.1*mass)), 4)`:
the oscillation formula damped by mass and rounded to 4 decimal places. -/
theorem c1_calculate_force_formula (sim : AntiGravitySimulator) (t : ℝ) :
    (calculate_force sim (some t)).1 =
      round4 (sim.field.strength * Real.sin (2 * π * sim.field.frequency * t) *
        sim.field.stability * (1 / (1 + 0.1 * sim.mass))) := rfl

/-- C4: constructing a field configuration succeeds, echoing all four supplied
values exactly, precisely when strength and stability lie in [0.0, 1.0], and
fails with the validation error precisely when one of them lies outside. -/
theorem c4_field_validation (s f r st : ℝ) :
    (mkField s f r st = Except.ok (AntiGravityField.mk s f r st) ↔
      ((0 ≤ s ∧ s ≤ 1) ∧ (0 ≤ st ∧ st ≤ 1))) ∧
    ((∃ e, mkField s f r st = Except.error e) ↔
      ¬ ((0 ≤ s ∧ s ≤ 1) ∧ (0 ≤ st ∧ st ≤ 1))) := by
  unfold mkField
  by_cases h1 : 0 ≤ s ∧ s ≤ 1
  · by_cases h2 : 0 ≤ st ∧ st ≤ 1
    · rw [if_neg (not_not_intro h1), if_neg (not_not_intro h2)]
      constructor
      · simp [h1, h2]
      · constructor
        · rintro ⟨e, he⟩
          exact absurd he (by simp)
        · intro h
          exact absurd ⟨h1, h2⟩ h
    · rw [if_neg (not_not_intro h1), if_pos h2]
      constructor
      · constructor
        · intro h
          exact absurd h (by simp)
        · rintro ⟨-, h⟩
          exact absurd h h2
      · constructor
        · intro _
          rintro ⟨-, h⟩
          exact h2 h
        · intro _
          exact ⟨_, rfl⟩
  · rw [if_pos h1]
    constructor
    · constructor
      · intro h
        exact absurd h (by simp)
      · rintro ⟨h, -⟩
        exact absurd h h1
    · constructor
      · intro _
        rintro ⟨h, -⟩
        exact h1 h
      · intro _
        exact ⟨_, rfl⟩

/-- C5: `calculate_force` with no time argument returns the force at the current
internal time cursor and advances the cursor by exactly 0.1, leaving mass and
field untouched; with an explicit time it leaves the whole state unchanged. -/
theorem c5_time_cursor (sim : AntiGravitySimulator) (t : ℝ) :
    (calculate_force sim none).1 = calculate_force_at sim sim.time ∧
    (calculate_force sim none).2.time = sim.time + 0.1 ∧
    (calculate_force sim none).2.mass = sim.mass ∧
    (calculate_force sim none).2.field = sim.field ∧
    calculate_force sim (some t) = (calculate_force_at sim t, sim) :=
  ⟨rfl, rfl, rfl, rfl, rfl⟩

/-- C6 (amended): for a simulator with nonnegative mass and a validly
constructed field (strength and stability in [0.0, 1.0]), `calculate_force(t)`
lies in the closed interval [-1.0, 1.0] for every time t. -/
theorem c6_force_bounded (m s f r stb tc t : ℝ) (hm : 0 ≤ m) (hs0 : 0 ≤ s)
    (hs1 : s ≤ 1) (hb0 : 0 ≤ stb) (hb1 : stb ≤ 1) :
    (calculate_force (AntiGravitySimulator.mk m (AntiGravityField.mk s f r stb) tc)
        (some t)).1 ∈ Set.Icc (-1 : ℝ) 1 := by
  apply round4_mem_Icc
  show |(s * Real.sin (2 * π * f * t) * stb) * (1 / (1 + 0.1 * m))| ≤ 1
  have hd0 : (0:ℝ) < 1 + 0.1 * m := by linarith
  have hd1 : 1 / (1 + 0.1 * m) ≤ 1 := by
    rw [div_le_one hd0]
    linarith
  have hd2 : 0 ≤ 1 / (1 + 0.1 * m) := by positivity
  have hx : |Real.sin (2 * π * f * t)| ≤ 1 :=
    abs_le.mpr ⟨Real.neg_one_le_sin _, Real.sin_le_one _⟩
  rw [abs_mul, abs_mul, abs_mul]
  rw [abs_of_nonneg hs0, abs_of_nonneg hb0, abs_of_nonneg hd2]
  have h1 : s * |Real.sin (2 * π * f * t)| ≤ 1 := mul_le_one₀ hs1 (abs_nonneg _) hx
  have h2 : s * |Real.sin (2 * π * f * t)| * stb ≤ 1 := mul_le_one₀ h1 hb0 hb1
  exact mul_le_one₀ h2 hd2 hd1

/-- Witness for C6 at mass 1, the default field and time 0. -/
theorem c6_witness :
    (0:ℝ) ≤ 1 ∧ (0:ℝ) ≤ 0.8 ∧ (0.8:ℝ) ≤ 1 ∧ (0:ℝ) ≤ 0.95 ∧ (0.95:ℝ) ≤ 1 ∧
    (calculate_force (AntiGravitySimulator.mk 1 (AntiGravityField.mk 0.8 9.8 5.0 0.95) 0)
        (some 0)).1 ∈ Set.Icc (-1 : ℝ) 1 := by
  refine ⟨by norm_num, by norm_num, by norm_num, by norm_num, by norm_num, ?_⟩
  exact c6_force_bounded 1 0.8 9.8 5.0 0.95 0 0 (by norm_num) (by norm_num)
    (by norm_num) (by norm_num) (by norm_num)

/-- Counterexample for C6 as stated: with the validly constructed field
(strength 1, frequency 1, radius 5, stability 1) and the negative mass -5
(mass is accepted unvalidated), the force at time 1/4 is 2, outside [-1, 1]:
the damping factor 1 / (1 + 0.1 * mass) = 2 amplifies instead of damping. -/
theorem c6_counterexample :
    (calculate_force (AntiGravitySimulator.mk (-5) (AntiGravityField.mk 1 1 5 1) 0)
        (some (1/4))).1 = 2 ∧
    (2 : ℝ) ∉ Set.Icc (-1 : ℝ) 1 := by
  constructor
  · show round4 (((1:ℝ) * Real.sin (2 * π * 1 * (1/4)) * 1) * (1 / (1 + 0.1 * (-5)))) = 2
    have hsin : Real.sin (2 * π * 1 * (1/4 : ℝ)) = 1 := by
      have h : 2 * π * 1 * (1/4 : ℝ) = π / 2 := by ring
      rw [h, Real.sin_pi_div_two]
    rw [hsin]
    have h2 : ((1:ℝ) * 1 * 1) * (1 / (1 + 0.1 * (-5))) = 2 := by norm_num
    rw [h2]
    unfold round4
    have h3 : (2 : ℝ) * 10000 = ((20000 : ℤ) : ℝ) := by norm_num
    rw [h3, round_intCast]
    norm_num
  · norm_num [Set.mem_Icc]

/-- Shared helper: when the boosted strength is nonnegative and the original
stability is at most 1, the field construction inside `optimize_field` passes
validation and the call returns the new configuration with the simulator state
untouched. -/
theorem optimize_field_ok (sim : AntiGravitySimulator) (H : ℝ)
    (hstb : sim.field.stability ≤ 1)
    (hpos : 0 ≤ sim.field.strength * (1 + H * 0.05)) :
    optimize_field sim H =
      (Except.ok (AntiGravityField.mk (min 1 (sim.field.strength * (1 + H * 0.05)))
        sim.field.frequency sim.field.radius (max 0.8 sim.field.stability)), sim) := by
  unfold optimize_field optimized_strength mkField
  rw [if_neg (not_not_intro ⟨le_min (by norm_num) hpos, min_le_left _ _⟩),
    if_neg (not_not_intro
      ⟨le_trans (by norm_num) (le_max_left (0.8:ℝ) sim.field.stability),
        max_le (by norm_num) hstb⟩)]

/-- C3 (amended): for every simulator whose field stability is at most 1 and
every target height H with strength * (1 + H * 0.05) ≥ 0, `optimize_field(H)`
returns a brand-new configuration with strength
min(1.0, strength * (1 + H * 0.05)), stability max(0.8, stability), frequency
and radius carried over, and the simulator state is left unchanged. -/
theorem c3_optimize_field_spec (sim : AntiGravitySimulator) (H : ℝ)
    (hstb : sim.field.stability ≤ 1)
    (hpos : 0 ≤ sim.field.strength * (1 + H * 0.05)) :
    optimize_field sim H =
      (Except.ok (AntiGravityField.mk (min 1 (sim.field.strength * (1 + H * 0.05)))
        sim.field.frequency sim.field.radius (max 0.8 sim.field.stability)), sim) :=
  optimize_field_ok sim H hstb hpos

/-- Witness for C3 at the default simulator and target height 10. -/
theorem c3_witness :
    (mkSimulator 1).field.stability ≤ 1 ∧
    0 ≤ (mkSimulator 1).field.strength * (1 + 10 * 0.05) ∧
    optimize_field (mkSimulator 1) 10 =
      (Except.ok (AntiGravityField.mk
        (min 1 ((mkSimulator 1).field.strength * (1 + 10 * 0.05)))
        (mkSimulator 1).field.frequency (mkSimulator 1).field.radius
        (max 0.8 (mkSimulator 1).field.stability)), mkSimulator 1) := by
  have h1 : (mkSimulator 1).field.stability ≤ 1 := by norm_num [mkSimulator]
  have h2 : 0 ≤ (mkSimulator 1).field.strength * (1 + 10 * 0.05) := by
    norm_num [mkSimulator]
  exact ⟨h1, h2, c3_optimize_field_spec (mkSimulator 1) 10 h1 h2⟩

/-- Counterexample for C3 as stated: at the default simulator (strength 0.8)
and target height -30 the boosted strength is min(1, 0.8 * (1 - 1.5)) = -0.4,
so the field construction fails validation and no configuration is returned. -/
theorem c3_counterexample :
    (optimize_field (mkSimulator 1) (-30)).1 =
      Except.error "Field strength must be between 0.0 and 1.0" := by
  have hstr : optimized_strength (mkSimulator 1) (-30) = -0.4 := by
    unfold optimized_strength mkSimulator
    rw [min_eq_right (by norm_num)]
    norm_num
  unfold optimize_field
  show mkField (optimized_strength (mkSimulator 1) (-30)) _ _ _ = _
  rw [hstr]
  unfold mkField
  rw [if_pos (show ¬ ((0:ℝ) ≤ -0.4 ∧ (-0.4:ℝ) ≤ 1) from
    fun h => absurd h.1 (by norm_num))]

/-- C7 (amended): for a validly constructed field and nonnegative target
heights H ≤ K, `optimize_field(H)` returns a field whose strength is at least
the original strength and at most 1.0, whose stability is at least 0.8, and the
returned strength is monotone in the target height up to the 1.0 ceiling. -/
theorem c7_optimize_bounds (sim : AntiGravitySimulator)
    (hs0 : 0 ≤ sim.field.strength) (hs1 : sim.field.strength ≤ 1)
    (hb1 : sim.field.stability ≤ 1) (H K : ℝ) (hH : 0 ≤ H) (hHK : H ≤ K) :
    (optimize_field sim H).1 =
      Except.ok (AntiGravityField.mk (min 1 (sim.field.strength * (1 + H * 0.05)))
        sim.field.frequency sim.field.radius (max 0.8 sim.field.stability)) ∧
    sim.field.strength ≤ min 1 (sim.field.strength * (1 + H * 0.05)) ∧
    min 1 (sim.field.strength * (1 + H * 0.05)) ≤ 1 ∧
    0.8 ≤ max 0.8 sim.field.stability ∧
    min 1 (sim.field.strength * (1 + H * 0.05)) ≤
      min 1 (sim.field.strength * (1 + K * 0.05)) := by
  have hpos : 0 ≤ sim.field.strength * (1 + H * 0.05) := by nlinarith
  refine ⟨?_, ?_, min_le_left _ _, le_max_left _ _, ?_⟩
  · rw [optimize_field_ok sim H hb1 hpos]
  · refine le_min hs1 ?_
    nlinarith
  · refine min_le_min le_rfl ?_
    nlinarith

/-- Witness for C7 at the default simulator, H = 2 and K = 3. -/
theorem c7_witness :
    0 ≤ (mkSimulator 1).field.strength ∧ (mkSimulator 1).field.strength ≤ 1 ∧
    (mkSimulator 1).field.stability ≤ 1 ∧ (0:ℝ) ≤ 2 ∧ (2:ℝ) ≤ 3 ∧
    ((optimize_field (mkSimulator 1) 2).1 =
      Except.ok (AntiGravityField.mk
        (min 1 ((mkSimulator 1).field.strength * (1 + 2 * 0.05)))
        (mkSimulator 1).field.frequency (mkSimulator 1).field.radius
        (max 0.8 (mkSimulator 1).field.stability)) ∧
    (mkSimulator 1).field.strength ≤
      min 1 ((mkSimulator 1).field.strength * (1 + 2 * 0.05)) ∧
    min 1 ((mkSimulator 1).field.strength * (1 + 2 * 0.05)) ≤ 1 ∧
    0.8 ≤ max 0.8 (mkSimulator 1).field.stability ∧
    min 1 ((mkSimulator 1).field.strength * (1 + 2 * 0.05)) ≤
      min 1 ((mkSimulator 1).field.strength * (1 + 3 * 0.05))) := by
  have h1 : 0 ≤ (mkSimulator 1).field.strength := by norm_num [mkSimulator]
  have h2 : (mkSimulator 1).field.strength ≤ 1 := by norm_num [mkSimulator]
  have h3 : (mkSimulator 1).field.stability ≤ 1 := by norm_num [mkSimulator]
  exact ⟨h1, h2, h3, by norm_num, by norm_num,
    c7_optimize_bounds (mkSimulator 1) h1 h2 h3 2 3 (by norm_num) (by norm_num)⟩

/-- Counterexample for C7 as stated: at the default simulator (strength 0.8)
the target height -10 yields the returned strength
min(1, 0.8 * (1 - 0.5)) = 0.4, strictly below the original strength 0.8. -/
theorem c7_counterexample :
    (optimize_field (mkSimulator 1) (-10)).1 =
      Except.ok (AntiGravityField.mk 0.4 9.8 5.0 0.95) ∧
    (0.4 : ℝ) < (mkSimulator 1).field.strength := by
  constructor
  · have h1 : (mkSimulator 1).field.stability ≤ 1 := by norm_num [mkSimulator]
    have h2 : 0 ≤ (mkSimulator 1).field.strength * (1 + (-10) * 0.05) := by
      norm_num [mkSimulator]
    rw [optimize_field_ok (mkSimulator 1) (-10) h1 h2]
    show Except.ok _ = _
    have e1 : min 1 ((mkSimulator 1).field.strength * (1 + (-10) * 0.05)) = (0.4:ℝ) := by
      unfold mkSimulator
      rw [min_eq_right (by norm_num)]
      norm_num
    rw [e1]
    unfold mkSimulator
    have e2 : max (0.8:ℝ) 0.95 = 0.95 := max_eq_right (by norm_num)
    show Except.ok (AntiGravityField.mk 0.4 9.8 5.0 (max 0.8 0.95)) = _
    rw [e2]
  · norm_num [mkSimulator]

/-- C10: for every simulator with positive field strength, any target height
below -20 makes 1 + H * 0.05 negative, the computed strength
min(1.0, strength * (1 + H * 0.05)) falls below 0.0, and `optimize_field(H)`
raises the field-construction validation error instead of returning a
configuration. -/
theorem c10_validation_error (sim : AntiGravitySimulator) (H : ℝ)
    (hs : 0 < sim.field.strength) (hH : H < -20) :
    (optimize_field sim H).1 =
      Except.error "Field strength must be between 0.0 and 1.0" := by
  have hfac : 1 + H * 0.05 < 0 := by linarith
  have hneg : sim.field.strength * (1 + H * 0.05) < 0 :=
    mul_neg_of_pos_of_neg hs hfac
  have hmin : optimized_strength sim H < 0 :=
    lt_of_le_of_lt (min_le_right _ _) hneg
  unfold optimize_field
  show mkField (optimized_strength sim H) _ _ _ = _
  unfold mkField
  rw [if_pos (fun h => absurd h.1 (not_le.mpr hmin))]

/-- Witness for C10 at the default simulator and target height -25. -/
theorem c10_witness :
    0 < (mkSimulator 1).field.strength ∧ ((-25:ℝ) < -20) ∧
    (optimize_field (mkSimulator 1) (-25)).1 =
      Except.error "Field strength must be between 0.0 and 1.0" := by
  have h1 : 0 < (mkSimulator 1).field.strength := by norm_num [mkSimulator]
  exact ⟨h1, by norm_num, c10_validation_error (mkSimulator 1) (-25) h1 (by norm_num)⟩

/-- C8 (amended): for a fixed configuration and mass with nonzero strength,
nonzero stability and nonzero damping denominator 1 + 0.1 * mass, the
*unrounded* adjusted force differs at t1 and t2 whenever the sine values
differ (the rounded return values of `calculate_force` can still collide). -/
theorem c8_unrounded_force_distinct (sim : AntiGravitySimulator) (t1 t2 : ℝ)
    (hs : sim.field.strength ≠ 0) (hb : sim.field.stability ≠ 0)
    (hm : 1 + 0.1 * sim.mass ≠ 0)
    (hsin : Real.sin (2 * π * sim.field.frequency * t1) ≠
      Real.sin (2 * π * sim.field.frequency * t2)) :
    adjusted_force sim t1 ≠ adjusted_force sim t2 := by
  unfold adjusted_force
  intro h
  apply hsin
  have hd : (1 : ℝ) / (1 + 0.1 * sim.mass) ≠ 0 := one_div_ne_zero hm
  have h2 := mul_right_cancel₀ hd h
  have h3 := mul_right_cancel₀ hb h2
  exact mul_left_cancel₀ hs h3

/-- Witness for C8 at mass 1, strength 0.8, frequency 1, stability 0.95,
t1 = 1/4 and t2 = 0. -/
theorem c8_witness :
    ((0.8:ℝ) ≠ 0) ∧ ((0.95:ℝ) ≠ 0) ∧ ((1:ℝ) + 0.1 * 1 ≠ 0) ∧
    Real.sin (2 * π * (1:ℝ) * (1/4)) ≠ Real.sin (2 * π * (1:ℝ) * 0) ∧
    adjusted_force
      (AntiGravitySimulator.mk 1 (AntiGravityField.mk 0.8 1 5 0.95) 0) (1/4) ≠
    adjusted_force
      (AntiGravitySimulator.mk 1 (AntiGravityField.mk 0.8 1 5 0.95) 0) 0 := by
  have hsin : Real.sin (2 * π * (1:ℝ) * (1/4)) ≠ Real.sin (2 * π * (1:ℝ) * 0) := by
    have h1 : 2 * π * (1:ℝ) * (1/4) = π / 2 := by ring
    have h2 : 2 * π * (1:ℝ) * 0 = 0 := by ring
    rw [h1, h2, Real.sin_pi_div_two, Real.sin_zero]
    norm_num
  refine ⟨by norm_num, by norm_num, by norm_num, hsin, ?_⟩
  exact c8_unrounded_force_distinct
    (AntiGravitySimulator.mk 1 (AntiGravityField.mk 0.8 1 5 0.95) 0) (1/4) 0
    (by norm_num) (by norm_num) (by norm_num) hsin

/-- Counterexample for C8 as stated: with strength 0.00001, frequency 1,
stability 1 and mass 0, the sine values at t1 = 1/4 and t2 = 0 differ (1 vs 0)
but `calculate_force` returns 0.0 at both times, because rounding to 4 decimal
places sends 0.00001 to 0. -/
theorem c8_counterexample :
    Real.sin (2 * π * (1:ℝ) * (1/4)) ≠ Real.sin (2 * π * (1:ℝ) * 0) ∧
    (calculate_force
      (AntiGravitySimulator.mk 0 (AntiGravityField.mk 0.00001 1 5 1) 0)
      (some (1/4))).1 =
    (calculate_force
      (AntiGravitySimulator.mk 0 (AntiGravityField.mk 0.00001 1 5 1) 0)
      (some 0)).1 := by
  have h1 : 2 * π * (1:ℝ) * (1/4) = π / 2 := by ring
  have h2 : 2 * π * (1:ℝ) * 0 = 0 := by ring
  constructor
  · rw [h1, h2, Real.sin_pi_div_two, Real.sin_zero]
    norm_num
  · show round4 (((0.00001:ℝ) * Real.sin (2 * π * 1 * (1/4)) * 1) * (1 / (1 + 0.1 * 0))) =
        round4 (((0.00001:ℝ) * Real.sin (2 * π * 1 * 0) * 1) * (1 / (1 + 0.1 * 0)))
    rw [h1, h2, Real.sin_pi_div_two, Real.sin_zero]
    have e1 : ((0.00001:ℝ) * 1 * 1) * (1 / (1 + 0.1 * 0)) = 0.00001 := by norm_num
    have e2 : ((0.00001:ℝ) * 0 * 1) * (1 / (1 + 0.1 * 0)) = 0 := by norm_num
    rw [e1, e2]
    unfold round4
    have r1 : round ((0.00001:ℝ) * 10000) = 0 := by
      have e3 : (0.00001:ℝ) * 10000 = 0.1 := by norm_num
      rw [e3, round_eq]
      rw [Int.floor_eq_iff]
      norm_num
    have r2 : round ((0:ℝ) * 10000) = 0 := by
      norm_num
    rw [r1, r2]

/-- The timestamp list has exactly `steps` entries. -/
theorem linspace_length (D : ℝ) (N : ℕ) : (linspace D N).length = N := by
  simp [linspace]

/-- The i-th timestamp is `D * i / (N - 1)`. -/
theorem linspace_getElem (D : ℝ) (N i : ℕ) (hi : i < N) :
    (linspace D N)[i]? = some (D * i / ((N : ℝ) - 1)) := by
  simp [linspace, List.getElem?_map, List.getElem?_range, hi]

/-- For a nonnegative stop value the timestamps are in ascending order. -/
theorem linspace_ascending (D : ℝ) (N : ℕ) (hD : 0 ≤ D) :
    ascending (linspace D N) := by
  unfold ascending linspace
  rw [List.pairwise_map]
  refine (List.pairwise_lt_range N).imp_of_mem ?_
  intro a b ha hb hab
  rw [List.mem_range] at ha hb
  have h2 : 2 ≤ N := by omega
  have hc : (0:ℝ) < (N : ℝ) - 1 := by
    have : (2:ℝ) ≤ (N : ℝ) := by exact_mod_cast h2
    linarith
  have : (a:ℝ) ≤ (b:ℝ) := by exact_mod_cast hab.le
  gcongr

/-- Unfolding equation of the spec-side Euler velocity. -/
theorem spec_velocity_succ (sim : AntiGravitySimulator) (D : ℝ) (N i : ℕ) :
    spec_velocity sim D N (i + 1) =
      spec_velocity sim D N i +
        calculate_force_at sim (D * (i : ℝ) / ((N : ℝ) - 1)) / sim.mass *
          (D / (N : ℝ)) := rfl

/-- Unfolding equation of the spec-side cumulative height. -/
theorem spec_height_succ (sim : AntiGravitySimulator) (D : ℝ) (N i : ℕ) :
    spec_height sim D N (i + 1) =
      spec_height sim D N i + spec_velocity sim D N (i + 1) * (D / (N : ℝ)) := rfl

/-- The Euler loop refines the spec-side recurrences: run from loop iteration i
on the remaining k timestamps, it appends exactly the heights
`spec_height (j + 1)` for j = i, ..., i + k - 1. -/
theorem trajectory_loop_spec (sim : AntiGravitySimulator) (D : ℝ) (N : ℕ) :
    ∀ (k i : ℕ),
      trajectory_loop sim D N (spec_velocity sim D N i) (spec_height sim D N i)
        ((List.range' i k).map (fun j : ℕ => D * (j : ℝ) / ((N : ℝ) - 1))) =
      (List.range' i k).map (fun j : ℕ => spec_height sim D N (j + 1)) := by
  intro k
  induction k with
  | zero => intro i; rfl
  | succ k ih =>
    intro i
    rw [List.range'_succ, List.map_cons, List.map_cons]
    simp only [trajectory_loop]
    rw [← spec_velocity_succ sim D N i, ← spec_height_succ sim D N i, ih (i + 1)]

/-- The height list of `simulate_trajectory` is exactly the list of spec-side
cumulative heights, one per timestamp. -/
theorem simulate_trajectory_heights (sim : AntiGravitySimulator) (D : ℝ) (N : ℕ) :
    (simulate_trajectory sim D N).2 =
      (List.range' 0 N).map (fun j : ℕ => spec_height sim D N (j + 1)) := by
  show trajectory_loop sim D N 0 0 (linspace D N) = _
  have h0 : linspace D N =
      (List.range' 0 N).map (fun j : ℕ => D * (j : ℝ) / ((N : ℝ) - 1)) := by
    unfold linspace
    rw [List.range_eq_range']
  rw [h0]
  exact trajectory_loop_spec sim D N N 0

/-- C2 (amended): for every nonnegative duration D and steps N ≥ 1,
`simulate_trajectory(D, N)` returns two parallel length-N sequences in
ascending time order: timestamps `D * i / (N - 1)` (first 0.0, last D for
N ≥ 2, the single timestamp 0 for N = 1) and heights given by the forward
Euler recurrence with dt = D / N, velocity starting at 0, the force evaluated
at each explicit timestamp (the internal time cursor is not consumed). -/
theorem c2_trajectory_spec (sim : AntiGravitySimulator) (D : ℝ) (N : ℕ)
    (hN : 1 ≤ N) (hD : 0 ≤ D) :
    (simulate_trajectory sim D N).1.length = N ∧
    (simulate_trajectory sim D N).2.length = N ∧
    (simulate_trajectory sim D N).1[0]? = some 0 ∧
    (2 ≤ N → (simulate_trajectory sim D N).1[N - 1]? = some D) ∧
    (∀ i : ℕ, i < N →
      (simulate_trajectory sim D N).1[i]? = some (D * (i : ℝ) / ((N : ℝ) - 1))) ∧
    (N = 1 → (simulate_trajectory sim D N).1 = [0]) ∧
    ascending (simulate_trajectory sim D N).1 ∧
    (∀ i : ℕ, i < N →
      (simulate_trajectory sim D N).2[i]? = some (spec_height sim D N (i + 1))) := by
  have hts : (simulate_trajectory sim D N).1 = linspace D N := rfl
  have hhs := simulate_trajectory_heights sim D N
  refine ⟨?_, ?_, ?_, ?_, ?_, ?_, ?_, ?_⟩
  · rw [hts, linspace_length]
  · rw [hhs]
    simp
  · rw [hts, linspace_getElem D N 0 (by omega)]
    norm_num
  · intro h2
    rw [hts, linspace_getElem D N (N - 1) (by omega)]
    have hc : ((N - 1 : ℕ) : ℝ) = (N : ℝ) - 1 := by
      push_cast [Nat.cast_sub hN]
      ring
    rw [hc]
    have hne : (N : ℝ) - 1 ≠ 0 := by
      have : (2:ℝ) ≤ (N : ℝ) := by exact_mod_cast h2
      intro hcon
      linarith
    rw [mul_div_assoc, div_self hne, mul_one]
  · intro i hi
    rw [hts, linspace_getElem D N i hi]
  · intro h1
    subst h1
    rw [hts]
    unfold linspace
    rw [show List.range 1 = [0] from rfl, List.map_cons, List.map_nil]
    norm_num
  · rw [hts]
    exact linspace_ascending D N hD
  · intro i hi
    rw [hhs]
    simp [List.getElem?_map, List.getElem?_range', hi]

/-- Witness for C2 at the default simulator, duration 1 and a single step. -/
theorem c2_witness :
    (1 ≤ 1) ∧ ((0:ℝ) ≤ 1) ∧
    ((simulate_trajectory (mkSimulator 1) 1 1).1.length = 1 ∧
    (simulate_trajectory (mkSimulator 1) 1 1).2.length = 1 ∧
    (simulate_trajectory (mkSimulator 1) 1 1).1[0]? = some 0 ∧
    (2 ≤ 1 → (simulate_trajectory (mkSimulator 1) 1 1).1[1 - 1]? = some 1) ∧
    (∀ i : ℕ, i < 1 →
      (simulate_trajectory (mkSimulator 1) 1 1).1[i]? =
        some (1 * (i : ℝ) / (((1:ℕ) : ℝ) - 1))) ∧
    (1 = 1 → (simulate_trajectory (mkSimulator 1) 1 1).1 = [0]) ∧
    ascending (simulate_trajectory (mkSimulator 1) 1 1).1 ∧
    (∀ i : ℕ, i < 1 →
      (simulate_trajectory (mkSimulator 1) 1 1).2[i]? =
        some (spec_height (mkSimulator 1) 1 1 (i + 1)))) :=
  ⟨le_refl 1, by norm_num,
    c2_trajectory_spec (mkSimulator 1) 1 1 (le_refl 1) (by norm_num)⟩

/-- Counterexample for C2 as stated: for the negative duration -1 with 2 steps
the returned timestamps are [0, -1], which is not in ascending time order. -/
theorem c2_counterexample :
    (simulate_trajectory (mkSimulator 1) (-1) 2).1 = [0, -1] ∧
    ¬ ascending [(0:ℝ), -1] := by
  constructor
  · show linspace (-1) 2 = [0, -1]
    unfold linspace
    rw [show List.range 2 = [0, 1] from rfl, List.map_cons, List.map_cons,
      List.map_nil]
    norm_num
  · intro h
    unfold ascending at h
    rcases List.pairwise_cons.mp h with ⟨h1, -⟩
    have h2 := h1 (-1) (by simp)
    norm_num at h2
